import Mathlib

/-!
# AudioUnitInstance: real-time instance management

A shallow embedding of `src/effects/audiounits/AudioUnitInstance.cpp`.

The native audio unit (CoreAudio) and the `AudioUnitWrapper` base class are not
part of the translated file.  Every call that leaves the file is a field of
`NativeAPI`, a record of pure transition functions over an arbitrary native
state type `U`; the embedded functions thread that state explicitly.  Nothing
is assumed about those functions, so every theorem holds for every native unit.

Conventions
* pointers are addresses (`Nat`), `0` is the null pointer;
* `OSStatus` is an integer, `0` is `noErr`;
* an out-of-bounds array access, or a failed `assert`, is the fault `none`;
* `Float64` sample times only ever hold non-negative integers here (they start
  at `0` and grow by frame counts), so they are represented by the integer they
  hold and every arithmetic result is rounded by `roundToDouble`.
-/

namespace AudioUnit

/-! ## Data model -/

abbrev OSStatus := Int

abbrev Ptr := Nat

/-- The null pointer. -/
def nullptr : Ptr := 0

/-- CoreAudio `AudioBuffer`: channel count, byte size, borrowed data pointer. -/
structure AudioBuffer where
  mNumberChannels : Nat
  mDataByteSize : Nat
  mData : Ptr
deriving DecidableEq, Repr

/-- CoreAudio `AudioBufferList`: a declared slot count and the slots that are
really there in memory. -/
structure AudioBufferList where
  mNumberBuffers : Nat
  mBuffers : List AudioBuffer
deriving DecidableEq, Repr

/-- The part of `AudioUnitEffectSettings` the file looks at: the parameter
values (never inspected here) and `pSource`, the address of the instance that
last fetched into the settings. -/
structure AudioUnitEffectSettings (S : Type) where
  values : S
  pSource : Ptr
deriving DecidableEq, Repr

/-- Every call that leaves `AudioUnitInstance.cpp`, as a transition on the
native state `U`.  A status different from `0` is a failure, as for `OSStatus`;
`StoreSettings` and `SetRateAndChannels` answer with a `bool` like the wrapper
methods they stand for. -/
structure NativeAPI (U S : Type) where
  /-- Query `GetFixedSizeProperty(kAudioUnitProperty_MaximumFramesPerSlice, _)`. -/
  GetMaximumFramesPerSlice : U → OSStatus × Nat
  CreateAudioUnit : U → U
  StoreSettings : U → AudioUnitEffectSettings S → Bool × U
  /-- Arguments: sample rate, identifier, current `mAudioIns`, `mAudioOuts`;
  answers with the new channel counts as well. -/
  SetRateAndChannels : U → Rat → String → Nat → Nat → Bool × U × Nat × Nat
  AudioUnitInitialize : U → OSStatus × U
  /-- Cleanup run when `mInitialization` lets go of a unit. -/
  UninitializeUnit : U → U
  /-- Call `SetProperty(kAudioUnitProperty_SetRenderCallback, {RenderCallback, this})`. -/
  SetRenderCallback : U → Ptr → OSStatus × U
  AudioUnitReset : U → OSStatus × U
  /-- Call `SetProperty(kAudioUnitProperty_BypassEffect, value)`. -/
  SetBypassProperty : U → Nat → OSStatus × U
  /-- Arguments: sample time, frame count, output buffer list, and the render
  callback the unit may invoke synchronously for its input. -/
  AudioUnitRender : U → Nat → Nat → Option (List AudioBuffer) →
    (AudioBufferList → Option (OSStatus × AudioBufferList)) → OSStatus × U

/-- The members of one `AudioUnitInstance` object, except `mSlaves` and
`mRecruited` (see `AudioUnitInstance`).  `self` is the object's address;
`mSampleTime` and `mFlags` are the two fields of `mTimeStamp` that are not
constantly zero; `mInitialization` tells whether the cleanup handle holds the
unit; a buffer list is `none` when its pointer is null. -/
structure InstanceState (U : Type) where
  self : Ptr
  mUnit : U
  mComponent : Nat
  mParameters : Ptr
  mIdentifier : String
  mBlockSize : Nat
  mUseLatency : Bool
  mAudioIns : Nat
  mAudioOuts : Nat
  mInputList : Option (List AudioBuffer)
  mOutputList : Option (List AudioBuffer)
  mSampleTime : Nat
  mFlags : Nat
  mInitialization : Bool
deriving DecidableEq, Repr

/-- An `AudioUnitInstance` seen as a group: its own members (`primary`) and the
instances it owns through `mSlaves`, plus `mRecruited`.  The `mSlaves` and
`mRecruited` members of an owned instance are never read or written by any
function of the file (they stay empty and false), so owned instances are
`InstanceState`s. -/
structure AudioUnitInstance (U : Type) where
  primary : InstanceState U
  mSlaves : List (InstanceState U)
  mRecruited : Bool
deriving DecidableEq, Repr

variable {U S : Type}

/-- Primary followed by the slaves: position `0` is the primary, position
`k + 1` is `mSlaves[k]`. -/
def AudioUnitInstance.instances (g : AudioUnitInstance U) : List (InstanceState U) :=
  g.primary :: g.mSlaves

/-! ## Numbers -/

/-- Number of low bits a `Float64` cannot keep of `n`: the least `e` with
`n / 2 ^ e < 2 ^ 53` (the first argument bounds the search; 1024 covers every
finite `Float64`). -/
def excessBits : Nat → Nat → Nat
  | 0, _ => 0
  | k + 1, n => if n < 2 ^ 53 then 0 else excessBits k (n / 2) + 1

/-- Conversion of a natural number to the nearest `Float64` (53-bit significand,
ties to even), given as the integer the result holds. -/
def roundToDouble (n : Nat) : Nat :=
  let e := excessBits 1024 n
  let q := n / 2 ^ e
  let r := n % 2 ^ e
  if 2 * r < 2 ^ e ∨ (2 * r = 2 ^ e ∧ q % 2 = 0) then q * 2 ^ e else (q + 1) * 2 ^ e

/-- Modelled from the spec: `PackedArray::Count` is declared outside the
translated file; the spec sizes each buffer-descriptor sequence by its channel
count, and a null list has no descriptors. -/
def Count (l : Option (List AudioBuffer)) : Nat :=
  match l with
  | none => 0
  | some bs => bs.length

/-- Modelled from the spec: `PackedArray::AllocateCount<AudioBufferList>(n)(n)`
is declared outside the translated file; it yields a fresh sequence of `n`
descriptors. -/
def AllocateCount (n : Nat) : Option (List AudioBuffer) :=
  some (List.replicate n ⟨0, 0, nullptr⟩)

/-! ## Construction and block size -/

/-- Source: `AudioUnitInstance::InitialBlockSize`, evaluated on the native state `u`. -/
def InitialBlockSize (api : NativeAPI U S) (u : U) : Nat :=
  if (api.GetMaximumFramesPerSlice u).1 ≠ 0 then 512
  else (api.GetMaximumFramesPerSlice u).2 % 2 ^ 32

/-- Source: the constructor `AudioUnitInstance::AudioUnitInstance`.  `addr` is
the address of the object under construction and `u0` the native state the
base-class constructor `AudioUnitWrapper{ component, &parameters }` leaves;
both are chosen by the platform.  Member initialisers run first
(`mBlockSize{ InitialBlockSize() }`), then the body sets the channel counts
and creates the unit. -/
def construct (api : NativeAPI U S) (addr : Ptr) (u0 : U) (component : Nat) (parameters : Ptr)
    (identifier : String) (audioIns audioOuts : Nat) (useLatency : Bool) : InstanceState U :=
  { self := addr
    mUnit := api.CreateAudioUnit u0
    mComponent := component
    mParameters := parameters
    mIdentifier := identifier
    mBlockSize := InitialBlockSize api u0
    mUseLatency := useLatency
    mAudioIns := audioIns
    mAudioOuts := audioOuts
    mInputList := none
    mOutputList := none
    mSampleTime := 0
    mFlags := 0
    mInitialization := false }

/-- Source: `AudioUnitInstance::SetBlockSize`: the argument is ignored. -/
def SetBlockSize (inst : InstanceState U) (_requested : Nat) : Nat × InstanceState U :=
  (inst.mBlockSize, inst)

/-- Source: `AudioUnitInstance::BypassEffect`. -/
def BypassEffect (api : NativeAPI U S) (inst : InstanceState U) (bypass : Bool) :
    Bool × InstanceState U :=
  let value : Nat := if bypass then 1 else 0
  if bypass then
    let r := api.AudioUnitReset inst.mUnit
    if r.1 ≠ 0 then (false, { inst with mUnit := r.2 })
    else
      let p := api.SetBypassProperty r.2 value
      (decide (p.1 = 0), { inst with mUnit := p.2 })
  else
    let p := api.SetBypassProperty inst.mUnit value
    (decide (p.1 = 0), { inst with mUnit := p.2 })

/-- Effect of `mInitialization.reset()`: a held unit is uninitialised. -/
def resetInitialization (api : NativeAPI U S) (inst : InstanceState U) : InstanceState U :=
  if inst.mInitialization then
    { inst with mUnit := api.UninitializeUnit inst.mUnit, mInitialization := false }
  else inst

/-- State of `ProcessInitialize` once the settings are stored into native
state `u1`: both lists allocated, the time stamp zeroed and flagged valid, the
previous initialisation dropped. -/
def afterAllocation (api : NativeAPI U S) (inst : InstanceState U) (u1 : U) : InstanceState U :=
  resetInitialization api
    { inst with
      mUnit := u1
      mInputList := AllocateCount inst.mAudioIns
      mOutputList := AllocateCount inst.mAudioOuts
      mSampleTime := 0
      mFlags := 1 }

/-- State of `ProcessInitialize` after `SetRateAndChannels` answered `r`, with
the native state moved on to `u` by the calls that followed. -/
def afterRate (inst : InstanceState U) (r : Bool × U × Nat × Nat) (u : U) : InstanceState U :=
  { inst with mUnit := u, mAudioIns := r.2.2.1, mAudioOuts := r.2.2.2 }

/-- Source: `AudioUnitInstance::ProcessInitialize` (the channel map is unused).
`st`, `r`, `a`, `c`, `z` are the answers of the native calls in source order,
each made on the native state its predecessor left. -/
def ProcessInitialize (api : NativeAPI U S) (inst : InstanceState U)
    (settings : AudioUnitEffectSettings S) (sampleRate : Rat) : Bool × InstanceState U :=
  let st := api.StoreSettings inst.mUnit settings
  if !st.1 then (false, { inst with mUnit := st.2 })
  else
    let i1 := afterAllocation api inst st.2
    let ins := i1.mAudioIns
    let outs := i1.mAudioOuts
    let r := api.SetRateAndChannels i1.mUnit sampleRate i1.mIdentifier i1.mAudioIns i1.mAudioOuts
    if !r.1 then (false, afterRate i1 r r.2.1)
    else
      let a := api.AudioUnitInitialize r.2.1
      if a.1 ≠ 0 then (false, afterRate i1 r a.2)
      else if ins ≠ r.2.2.1 ∨ outs ≠ r.2.2.2 then (false, afterRate i1 r a.2)
      else
        let c := api.SetRenderCallback a.2 i1.self
        if c.1 ≠ 0 then (false, { afterRate i1 r c.2 with mInitialization := true })
        else
          let z := api.AudioUnitReset c.2
          if z.1 ≠ 0 then (false, { afterRate i1 r z.2 with mInitialization := true })
          else
            let b := BypassEffect api { afterRate i1 r z.2 with mInitialization := true } false
            if !b.1 then (false, b.2) else (true, b.2)

/-- Source: `AudioUnitInstance::ProcessFinalize`. -/
def ProcessFinalize (inst : InstanceState U) : Bool × InstanceState U :=
  (true, { inst with mOutputList := none, mInputList := none })

/-- One of the two descriptor loops of `ProcessBlock`, `n` iterations from
index `i`: `list[i] = { 1, bytes, block[i] }`. -/
def fillDescriptors (block : List Ptr) (bytes : Nat) :
    Nat → Nat → List AudioBuffer → Option (List AudioBuffer)
  | 0, _, l => some l
  | n + 1, i, l =>
    match block[i]? with
    | none => none
    | some p =>
      if i < l.length then fillDescriptors block bytes n (i + 1) (l.set i ⟨1, bytes, p⟩)
      else none

/-- A descriptor loop of `ProcessBlock` on a list that may be null. -/
def fillList (block : List Ptr) (bytes count : Nat) :
    Option (List AudioBuffer) → Option (Option (List AudioBuffer))
  | none => if count = 0 then some none else none
  | some l => (fillDescriptors block bytes count 0 l).map some

/-- First loop of `Render`, `n` iterations from index `i`:
`ioData->mBuffers[i].mData = mInputList[i].mData`. -/
def copyPointers (src : List AudioBuffer) :
    Nat → Nat → List AudioBuffer → Option (List AudioBuffer)
  | 0, _, dst => some dst
  | n + 1, i, dst =>
    match src[i]?, dst[i]? with
    | some s, some d => copyPointers src n (i + 1) (dst.set i { d with mData := s.mData })
    | _, _ => none

/-- Second loop of `Render`, `n` iterations from index `i`:
`ioData->mBuffers[i].mData = nullptr`. -/
def clearPointers : Nat → Nat → List AudioBuffer → Option (List AudioBuffer)
  | 0, _, dst => some dst
  | n + 1, i, dst =>
    match dst[i]? with
    | some d => clearPointers n (i + 1) (dst.set i { d with mData := nullptr })
    | none => none

/-- Source: `AudioUnitInstance::Render` (flags, time stamp, bus and frame count
are not used by the body).  The instance is only read. -/
def Render (inst : InstanceState U) (ioData : AudioBufferList) :
    Option (OSStatus × AudioBufferList) :=
  let size := min ioData.mNumberBuffers (Count inst.mInputList)
  match copyPointers (inst.mInputList.getD []) size 0 ioData.mBuffers with
  | none => none
  | some b1 =>
    match clearPointers (ioData.mNumberBuffers - size) size b1 with
    | none => none
    | some b2 => some (0, { ioData with mBuffers := b2 })

/-- Source: `AudioUnitInstance::RenderCallback`. -/
def RenderCallback (inRefCon : InstanceState U) (ioData : AudioBufferList) :
    Option (OSStatus × AudioBufferList) :=
  Render inRefCon ioData

/-- State of `ProcessBlock` when the native render is entered: both descriptor
loops have run.  `none` when an `assert` fails or an access is out of bounds. -/
def prepareBlock (inst : InstanceState U) (inBlock outBlock : List Ptr) (blockLen : Nat) :
    Option (InstanceState U) :=
  let bytes := (4 * blockLen) % 2 ^ 32
  if Count inst.mInputList < inst.mAudioIns then none
  else
    match fillList inBlock bytes inst.mAudioIns inst.mInputList with
    | none => none
    | some inl =>
      if Count inst.mOutputList < inst.mAudioOuts then none
      else
        match fillList outBlock bytes inst.mAudioOuts inst.mOutputList with
        | none => none
        | some outl => some { inst with mInputList := inl, mOutputList := outl }

/-- The call `AudioUnitRender(mUnit.get(), &flags, &mTimeStamp, 0, blockLen,
mOutputList.get())` of `ProcessBlock`, made in state `i1`; the frame count
parameter of the native call is a `UInt32`. -/
def nativeRender (api : NativeAPI U S) (i1 : InstanceState U) (blockLen : Nat) : OSStatus × U :=
  api.AudioUnitRender i1.mUnit i1.mSampleTime (blockLen % 2 ^ 32) i1.mOutputList
    (RenderCallback i1)

/-- Source: `AudioUnitInstance::ProcessBlock`. -/
def ProcessBlock (api : NativeAPI U S) (inst : InstanceState U)
    (inBlock outBlock : List Ptr) (blockLen : Nat) : Option (Nat × InstanceState U) :=
  match prepareBlock inst inBlock outBlock blockLen with
  | none => none
  | some i1 =>
    let r := nativeRender api i1 blockLen
    let i2 := { i1 with mUnit := r.2 }
    if r.1 ≠ 0 then some (0, i2)
    else
      some (blockLen,
        { i2 with mSampleTime := roundToDouble (i2.mSampleTime + roundToDouble blockLen) })

/-! ## Group operations -/

/-- Source: `AudioUnitInstance::RealtimeInitialize`. -/
def RealtimeInitialize (api : NativeAPI U S) (g : AudioUnitInstance U)
    (settings : AudioUnitEffectSettings S) (sampleRate : Rat) : Bool × AudioUnitInstance U :=
  let r := ProcessInitialize api g.primary settings sampleRate
  (r.1, { g with primary := r.2 })

/-- What one `RealtimeAddProcessor` call receives: its two used arguments
(the `unsigned` one is unused; the `float` rate converts exactly to `double`)
and what the platform decides when the call builds an instance, namely the
address of the new object and the native state its wrapper starts from. -/
structure AddCall (U S : Type) where
  settings : AudioUnitEffectSettings S
  sampleRate : Rat
  addr : Ptr
  wrapper : U

/-- The instance `RealtimeAddProcessor` builds with `std::make_unique`, after
its `SetBlockSize(mBlockSize)` call and before `ProcessInitialize`. -/
def newProcessor (api : NativeAPI U S) (p : InstanceState U) (c : AddCall U S) :
    InstanceState U :=
  let uProcessor : InstanceState U :=
    construct api c.addr c.wrapper p.mComponent p.mParameters p.mIdentifier p.mAudioIns
      p.mAudioOuts p.mUseLatency
  (SetBlockSize uProcessor p.mBlockSize).2

/-- The call `uProcessor->ProcessInitialize(settings, sampleRate, nullptr)` of
`RealtimeAddProcessor`. -/
def initNewProcessor (api : NativeAPI U S) (p : InstanceState U) (c : AddCall U S) :
    Bool × InstanceState U :=
  ProcessInitialize api (newProcessor api p c) c.settings c.sampleRate

/-- Source: `AudioUnitInstance::RealtimeAddProcessor`. -/
def RealtimeAddProcessor (api : NativeAPI U S) (g : AudioUnitInstance U) (c : AddCall U S) :
    Bool × AudioUnitInstance U :=
  if !g.mRecruited then (true, { g with mRecruited := true })
  else
    let r := initNewProcessor api g.primary c
    if !r.1 then (false, g)
    else (true, { g with mSlaves := g.mSlaves ++ [r.2] })

/-- A run of `RealtimeAddProcessor` calls, one after the other; the flag tells
whether all of them returned success. -/
def addProcessors (api : NativeAPI U S) :
    AudioUnitInstance U → List (AddCall U S) → Bool × AudioUnitInstance U
  | g, [] => (true, g)
  | g, c :: cs =>
    let r := RealtimeAddProcessor api g c
    let q := addProcessors api r.2 cs
    (r.1 && q.1, q.2)

/-- The group with the instance at position `i` replaced by `x` (position `0`
is the primary, position `k + 1` is `mSlaves[k]`). -/
def AudioUnitInstance.setInstance (g : AudioUnitInstance U) (i : Nat) (x : InstanceState U) :
    AudioUnitInstance U :=
  match i with
  | 0 => { g with primary := x }
  | k + 1 => { g with mSlaves := g.mSlaves.set k x }

/-- What one `RealtimeFinalize` call does, statement by statement: the group
after the range-for loop over `mSlaves`, after `mSlaves.clear()`, after
`mRecruited = false`, and the value and the group the call ends with (after
`return ProcessFinalize()`). -/
structure FinalizeRun (U : Type) where
  afterLoop : AudioUnitInstance U
  afterClear : AudioUnitInstance U
  afterUnrecruit : AudioUnitInstance U
  result : Bool
  final : AudioUnitInstance U

/-- The groups a `RealtimeFinalize` call goes through, in order. -/
def FinalizeRun.states (r : FinalizeRun U) : List (AudioUnitInstance U) :=
  [r.afterLoop, r.afterClear, r.afterUnrecruit, r.final]

/-- Source: `AudioUnitInstance::RealtimeFinalize`.  The body runs inside
`GuardedCall`; none of its steps throws, so the guard hands the result on. -/
def RealtimeFinalize (g : AudioUnitInstance U) : FinalizeRun U :=
  let g1 := { g with mSlaves := g.mSlaves.map fun pSlave => (ProcessFinalize pSlave).2 }
  let g2 := { g1 with mSlaves := [] }
  let g3 := { g2 with mRecruited := false }
  let r := ProcessFinalize g3.primary
  { afterLoop := g1, afterClear := g2, afterUnrecruit := g3, result := r.1
    final := { g3 with primary := r.2 } }

/-- The range-for loop of `RealtimeSuspend` (`bypass = true`) and of
`RealtimeResume` (`bypass = false`) over `mSlaves`, with its early return. -/
def bypassSlaves (api : NativeAPI U S) (bypass : Bool) :
    List (InstanceState U) → Bool × List (InstanceState U)
  | [] => (true, [])
  | pSlave :: rest =>
    let r := BypassEffect api pSlave bypass
    if !r.1 then (false, r.2 :: rest)
    else
      let q := bypassSlaves api bypass rest
      (q.1, r.2 :: q.2)

/-- Source: `AudioUnitInstance::RealtimeSuspend`. -/
def RealtimeSuspend (api : NativeAPI U S) (g : AudioUnitInstance U) :
    Bool × AudioUnitInstance U :=
  let r := BypassEffect api g.primary true
  if !r.1 then (false, { g with primary := r.2 })
  else
    let q := bypassSlaves api true g.mSlaves
    (q.1, { g with primary := r.2, mSlaves := q.2 })

/-- Source: `AudioUnitInstance::RealtimeResume`. -/
def RealtimeResume (api : NativeAPI U S) (g : AudioUnitInstance U) :
    Bool × AudioUnitInstance U :=
  let r := BypassEffect api g.primary false
  if !r.1 then (false, { g with primary := r.2 })
  else
    let q := bypassSlaves api false g.mSlaves
    (q.1, { g with primary := r.2, mSlaves := q.2 })

/-- The lambda `storeSettings` of `RealtimeProcessStart`; the result of
`StoreSettings` is dropped there. -/
def storeSettings (api : NativeAPI U S) (mySettings : AudioUnitEffectSettings S)
    (inst : InstanceState U) : InstanceState U :=
  if inst.self ≠ mySettings.pSource then
    { inst with mUnit := (api.StoreSettings inst.mUnit mySettings).2 }
  else inst

/-- Source: `AudioUnitInstance::RealtimeProcessStart`. -/
def RealtimeProcessStart (api : NativeAPI U S) (g : AudioUnitInstance U)
    (settings : AudioUnitEffectSettings S) : Bool × AudioUnitInstance U :=
  let g1 := { g with primary := storeSettings api settings g.primary }
  (true, { g1 with mSlaves := g1.mSlaves.map (storeSettings api settings) })

/-- Source: `AudioUnitInstance::RealtimeProcess`.  `wxASSERT(numSamples <=
mBlockSize)` reports in debug builds and changes neither the control flow nor
the state, so it has no counterpart here.  `group` is a `size_t`; `--group` is
only reached with `group ≠ 0`. -/
def RealtimeProcess (api : NativeAPI U S) (g : AudioUnitInstance U) (group : Nat)
    (inbuf outbuf : List Ptr) (numSamples : Nat) : Option (Nat × AudioUnitInstance U) :=
  if !g.mRecruited then some (0, g)
  else if group = 0 then
    match ProcessBlock api g.primary inbuf outbuf numSamples with
    | none => none
    | some r => some (r.1, { g with primary := r.2 })
  else
    match g.mSlaves[group - 1]? with
    | some pSlave =>
      match ProcessBlock api pSlave inbuf outbuf numSamples with
      | none => none
      | some r => some (r.1, { g with mSlaves := g.mSlaves.set (group - 1) r.2 })
    | none => some (0, g)

/-- Source: `AudioUnitInstance::RealtimeProcessEnd`. -/
def RealtimeProcessEnd (g : AudioUnitInstance U) : Bool × AudioUnitInstance U := (true, g)

/-! ## A stub native unit for concrete runs -/

/-- Native state of the stub unit: the answers it will give and counters of
the calls it has received. -/
structure StubUnit where
  storeOk : Bool
  bypassOk : Bool
  renderOk : Bool
  queryOk : Bool
  forceMono : Bool
  maxFrames : Nat
  stores : Nat
  bypassCalls : Nat
  renders : Nat
  bypassed : Nat
deriving DecidableEq, Repr

/-- The stub native layer: every call answers as the state says and counts. -/
def stub : NativeAPI StubUnit Unit where
  GetMaximumFramesPerSlice := fun u => if u.queryOk then (0, u.maxFrames) else (-1, 0)
  CreateAudioUnit := fun u => { u with queryOk := true, maxFrames := 1156 }
  StoreSettings := fun u _ => (u.storeOk, { u with stores := u.stores + 1 })
  SetRateAndChannels := fun u _ _ ins outs =>
    if u.forceMono then (true, u, 1, 1) else (true, u, ins, outs)
  AudioUnitInitialize := fun u => (0, u)
  UninitializeUnit := fun u => u
  SetRenderCallback := fun u _ => (0, u)
  AudioUnitReset := fun u => (0, u)
  SetBypassProperty := fun u v =>
    if u.bypassOk then (0, { u with bypassCalls := u.bypassCalls + 1, bypassed := v })
    else (-1, { u with bypassCalls := u.bypassCalls + 1 })
  AudioUnitRender := fun u _ _ _ _ =>
    if u.renderOk then (0, { u with renders := u.renders + 1 })
    else (-1, { u with renders := u.renders + 1 })

/-- A stub instance at address `addr`, as `ProcessInitialize` leaves it for
`ins` inputs and `outs` outputs, with native state `u`. -/
def stubInstance (addr : Ptr) (u : StubUnit) (ins outs : Nat) : InstanceState StubUnit :=
  { self := addr, mUnit := u, mComponent := 7, mParameters := 900, mIdentifier := "stub"
    mBlockSize := 512, mUseLatency := false, mAudioIns := ins, mAudioOuts := outs
    mInputList := AllocateCount ins, mOutputList := AllocateCount outs
    mSampleTime := 0, mFlags := 1, mInitialization := true }

/-- A well-behaved stub native state. -/
def goodUnit : StubUnit :=
  { storeOk := true, bypassOk := true, renderOk := true, queryOk := true, forceMono := false
    maxFrames := 512, stores := 0, bypassCalls := 0, renders := 0, bypassed := 0 }

/-- The two `assert`s of `ProcessBlock`: each list has at least as many
descriptors as the instance has channels.  `ProcessInitialize` establishes it. -/
def Initialized (inst : InstanceState U) : Prop :=
  inst.mAudioIns ≤ Count inst.mInputList ∧ inst.mAudioOuts ≤ Count inst.mOutputList

instance (inst : InstanceState U) : Decidable (Initialized inst) := by
  unfold Initialized; infer_instance

/-- A recruited stub group: a primary and two slaves, stereo in and out. -/
def stubGroup : AudioUnitInstance StubUnit :=
  { primary := stubInstance 1000 goodUnit 2 2
    mSlaves := [stubInstance 2000 goodUnit 2 2, stubInstance 3000 goodUnit 2 2]
    mRecruited := true }

/-! ## Statement vocabulary and concrete scenarios -/

/-- The native results of the calls `ProcessInitialize` makes, each on the
native state the previous call left: store, rate and channels, initialise,
render callback, reset, un-bypass. -/
structure InitTrace (U : Type) where
  store : Bool × U
  rate : Bool × U × Nat × Nat
  init : OSStatus × U
  callback : OSStatus × U
  reset : OSStatus × U
  unbypass : OSStatus × U

/-- The calls of `ProcessInitialize` in source order, were none of them to
stop the function. -/
def initTrace (api : NativeAPI U S) (inst : InstanceState U)
    (settings : AudioUnitEffectSettings S) (sampleRate : Rat) : InitTrace U :=
  let st := api.StoreSettings inst.mUnit settings
  let i1 := afterAllocation api inst st.2
  let r := api.SetRateAndChannels i1.mUnit sampleRate i1.mIdentifier i1.mAudioIns i1.mAudioOuts
  let a := api.AudioUnitInitialize r.2.1
  let c := api.SetRenderCallback a.2 inst.self
  let z := api.AudioUnitReset c.2
  { store := st, rate := r, init := a, callback := c, reset := z
    unbypass := api.SetBypassProperty z.2 0 }

/-- The stub instance a successful `ProcessInitialize` yields from a freshly
constructed stereo instance. -/
def freshStub : InstanceState StubUnit :=
  (ProcessInitialize stub (construct stub 1000 goodUnit 7 900 "stub" 2 2 false) ⟨(), 0⟩
    44100).2

/-- A stub instance whose native unit answers `SetRateAndChannels` with one
input and one output whatever it had. -/
def monoStub : InstanceState StubUnit :=
  construct stub 1000 { goodUnit with forceMono := true } 7 900 "stub" 2 2 false

/-- A stub instance whose native unit refuses the settings store. -/
def refusingStub : InstanceState StubUnit :=
  construct stub 1000 { goodUnit with storeOk := false } 7 900 "stub" 2 2 false

/-- A call whose new native unit refuses the settings store. -/
def refusedCall : AddCall StubUnit Unit :=
  { settings := ⟨(), 0⟩, sampleRate := 44100, addr := 4000
    wrapper := { goodUnit with storeOk := false } }

/-- A call whose new native unit behaves. -/
def goodCall (addr : Ptr) : AddCall StubUnit Unit :=
  { settings := ⟨(), 0⟩, sampleRate := 44100, addr := addr, wrapper := goodUnit }

/-- A freshly constructed stub group: initialised primary, no slave, not
recruited. -/
def freshGroup : AudioUnitInstance StubUnit :=
  { primary := freshStub, mSlaves := [], mRecruited := false }

/-- What the claim on `SuspendAll` / `ResumeAll` says of a call that turned
group `g` into result `r` with bypass value `b`: the recruited flag and the
number of instances are kept; the result is success exactly when the bypass
change succeeds on every instance, and then every instance holds its attempted
state; when position `k` is the first failing one, the result is failure,
positions up to `k` hold the attempted state and later positions are
untouched. -/
abbrev StopsAtFirstFailure (api : NativeAPI U S) (b : Bool) (g : AudioUnitInstance U)
    (r : Bool × AudioUnitInstance U) : Prop :=
  r.2.mRecruited = g.mRecruited ∧
  r.2.instances.length = g.instances.length ∧
  (r.1 = true ↔ ∀ x ∈ g.instances, (BypassEffect api x b).1 = true) ∧
  (r.1 = true → r.2.instances = g.instances.map fun x => (BypassEffect api x b).2) ∧
  (∀ (k : Nat) (x : InstanceState U), g.instances[k]? = some x →
    (BypassEffect api x b).1 = false →
    (∀ (i : Nat) (y : InstanceState U), i < k → g.instances[i]? = some y →
      (BypassEffect api y b).1 = true) →
      r.1 = false ∧
      (∀ (i : Nat) (y : InstanceState U), i ≤ k → g.instances[i]? = some y →
        r.2.instances[i]? = some (BypassEffect api y b).2) ∧
      (∀ i : Nat, k < i → r.2.instances[i]? = g.instances[i]?))

/-- A recruited stub group of a primary and two slaves in which the bypass
change fails on the first slave. -/
def faultyGroup : AudioUnitInstance StubUnit :=
  { primary := stubInstance 1000 goodUnit 2 2
    mSlaves := [stubInstance 2000 { goodUnit with bypassOk := false } 2 2,
      stubInstance 3000 goodUnit 2 2]
    mRecruited := true }

/-- The groups `FinalizeAll` goes through in the order the spec words it:
every slave finalized, then the primary finalized, then the slave list
cleared, then the primary un-recruited. -/
def FinalizeAllSpec (g : AudioUnitInstance U) : List (AudioUnitInstance U) :=
  let g1 := { g with mSlaves := g.mSlaves.map fun pSlave => (ProcessFinalize pSlave).2 }
  let g2 := { g1 with primary := (ProcessFinalize g1.primary).2 }
  let g3 := { g2 with mSlaves := [] }
  let g4 := { g3 with mRecruited := false }
  [g1, g2, g3, g4]

/-! ## Helper lemmas: the descriptor loops -/

theorem fillDescriptors_spec (block : List Ptr) (bytes : Nat) :
    ∀ (n i : Nat) (l : List AudioBuffer), i + n ≤ l.length → i + n ≤ block.length →
      ∃ l2, fillDescriptors block bytes n i l = some l2 ∧ l2.length = l.length ∧
        (∀ j p, i ≤ j → j < i + n → block[j]? = some p → l2[j]? = some ⟨1, bytes, p⟩) ∧
        (∀ j, j < i ∨ i + n ≤ j → l2[j]? = l[j]?) := by
  intro n
  induction n with
  | zero =>
    intro i l _ _
    exact ⟨l, rfl, rfl, fun j p h1 h2 => by omega, fun j _ => rfl⟩
  | succ n ih =>
    intro i l hl hb
    have hib : i < block.length := by omega
    have hil : i < l.length := by omega
    obtain ⟨l2, h2, hlen, hin, hout⟩ :=
      ih (i + 1) (l.set i ⟨1, bytes, block[i]⟩) (by simp; omega) (by omega)
    refine ⟨l2, ?_, by simpa using hlen, ?_, ?_⟩
    · simp [fillDescriptors, List.getElem?_eq_getElem hib, hil, h2]
    · intro j p h1 h3 hp
      by_cases hj : j = i
      · subst hj
        rw [hout j (Or.inl (by omega))]
        rw [List.getElem?_eq_getElem hib] at hp
        simp only [Option.some.injEq] at hp
        simp [List.getElem?_set, hil, hp]
      · exact hin j p (by omega) (by omega) hp
    · intro j hj
      rw [hout j (by omega)]
      have : i ≠ j := by omega
      simp [List.getElem?_set, this]

theorem fillList_spec (block : List Ptr) (bytes count : Nat) (l : Option (List AudioBuffer))
    (hl : count ≤ Count l) (hb : count ≤ block.length) :
    ∃ l2, fillList block bytes count l = some l2 ∧ Count l2 = Count l ∧
      (∀ j p, j < count → block[j]? = some p →
        ∃ bs, l2 = some bs ∧ bs[j]? = some ⟨1, bytes, p⟩) := by
  cases l with
  | none =>
    have h0 : count = 0 := by simpa [Count] using hl
    exact ⟨none, by simp [fillList, h0], rfl, fun j p hj _ => by omega⟩
  | some bs =>
    obtain ⟨l2, h2, hlen, hin, _⟩ :=
      fillDescriptors_spec block bytes count 0 bs (by simpa [Count] using hl) (by omega)
    refine ⟨some l2, by simp [fillList, h2], by simp [Count, hlen], ?_⟩
    intro j p hj hp
    exact ⟨l2, rfl, hin j p (Nat.zero_le j) (by omega) hp⟩

/-- On an initialised instance with enough caller buffers the two descriptor
loops run to the end; they only touch the two lists. -/
theorem prepareBlock_spec (inst : InstanceState U) (inBlock outBlock : List Ptr)
    (blockLen : Nat) (hinit : Initialized inst) (hin : inst.mAudioIns ≤ inBlock.length)
    (hout : inst.mAudioOuts ≤ outBlock.length) :
    ∃ inl outl, prepareBlock inst inBlock outBlock blockLen =
        some { inst with mInputList := inl, mOutputList := outl } ∧
      Count inl = Count inst.mInputList ∧ Count outl = Count inst.mOutputList ∧
      (∀ j p, j < inst.mAudioIns → inBlock[j]? = some p →
        ∃ bs b, inl = some bs ∧ bs[j]? = some b ∧ b.mData = p) := by
  obtain ⟨inl, h1, hc1, hd⟩ :=
    fillList_spec inBlock ((4 * blockLen) % 2 ^ 32) inst.mAudioIns inst.mInputList hinit.1 hin
  obtain ⟨outl, h2, hc2, -⟩ :=
    fillList_spec outBlock ((4 * blockLen) % 2 ^ 32) inst.mAudioOuts inst.mOutputList
      hinit.2 hout
  refine ⟨inl, outl, ?_, hc1, hc2, ?_⟩
  · unfold prepareBlock
    simp only [h1, h2, Nat.not_lt.mpr hinit.1, Nat.not_lt.mpr hinit.2, if_false]
  · intro j p hj hp
    obtain ⟨bs, hbs, hb⟩ := hd j p hj hp
    exact ⟨bs, _, hbs, hb, rfl⟩

theorem afterAllocation_fields (api : NativeAPI U S) (inst : InstanceState U) (u1 : U) :
    (afterAllocation api inst u1).mAudioIns = inst.mAudioIns ∧
    (afterAllocation api inst u1).mAudioOuts = inst.mAudioOuts ∧
    (afterAllocation api inst u1).self = inst.self ∧
    (afterAllocation api inst u1).mBlockSize = inst.mBlockSize ∧
    (afterAllocation api inst u1).mInputList = AllocateCount inst.mAudioIns ∧
    (afterAllocation api inst u1).mOutputList = AllocateCount inst.mAudioOuts ∧
    (afterAllocation api inst u1).mSampleTime = 0 := by
  unfold afterAllocation resetInitialization
  split <;> simp

theorem BypassEffect_false (api : NativeAPI U S) (inst : InstanceState U) :
    BypassEffect api inst false =
      (decide ((api.SetBypassProperty inst.mUnit 0).1 = 0),
        { inst with mUnit := (api.SetBypassProperty inst.mUnit 0).2 }) := rfl

/-- Whatever its outcome, `ProcessInitialize` keeps the address and the block
size of the instance. -/
theorem ProcessInitialize_keeps (api : NativeAPI U S) (inst : InstanceState U)
    (settings : AudioUnitEffectSettings S) (sampleRate : Rat) :
    (ProcessInitialize api inst settings sampleRate).2.self = inst.self ∧
    (ProcessInitialize api inst settings sampleRate).2.mBlockSize = inst.mBlockSize := by
  obtain ⟨-, -, hs, hb, -, -, -⟩ :=
    afterAllocation_fields api inst (api.StoreSettings inst.mUnit settings).2
  unfold ProcessInitialize
  simp only [BypassEffect_false]
  split_ifs <;> first | exact ⟨rfl, rfl⟩ | exact ⟨hs, hb⟩

/-- A successful `ProcessInitialize` leaves the channel counts as they were,
both lists allocated to those counts and the sample time at zero. -/
theorem ProcessInitialize_true (api : NativeAPI U S) (inst : InstanceState U)
    (settings : AudioUnitEffectSettings S) (sampleRate : Rat)
    (h : (ProcessInitialize api inst settings sampleRate).1 = true) :
    (ProcessInitialize api inst settings sampleRate).2.mAudioIns = inst.mAudioIns ∧
    (ProcessInitialize api inst settings sampleRate).2.mAudioOuts = inst.mAudioOuts ∧
    (ProcessInitialize api inst settings sampleRate).2.mInputList =
      AllocateCount inst.mAudioIns ∧
    (ProcessInitialize api inst settings sampleRate).2.mOutputList =
      AllocateCount inst.mAudioOuts ∧
    (ProcessInitialize api inst settings sampleRate).2.mSampleTime = 0 := by
  obtain ⟨hi, ho, -, -, hil, hol, ht⟩ :=
    afterAllocation_fields api inst (api.StoreSettings inst.mUnit settings).2
  unfold ProcessInitialize at h ⊢
  simp only [BypassEffect_false] at h ⊢
  split_ifs at h ⊢ with h1 h2 h3 h4 h5 h6 h7
  have e1 := (not_not.mp fun hh => h4 (Or.inl hh)).symm
  have e2 := (not_not.mp fun hh => h4 (Or.inr hh)).symm
  exact ⟨e1.trans hi, e2.trans ho, hil, hol, ht⟩

theorem ProcessInitialize_initialized (api : NativeAPI U S) (inst : InstanceState U)
    (settings : AudioUnitEffectSettings S) (sampleRate : Rat)
    (h : (ProcessInitialize api inst settings sampleRate).1 = true) :
    Initialized (ProcessInitialize api inst settings sampleRate).2 := by
  obtain ⟨h1, h2, h3, h4, -⟩ := ProcessInitialize_true api inst settings sampleRate h
  simp [Initialized, h1, h2, h3, h4, AllocateCount, Count]

/-! ## Helper lemmas: growing the group -/

theorem RealtimeAddProcessor_primary (api : NativeAPI U S) (g : AudioUnitInstance U)
    (c : AddCall U S) : (RealtimeAddProcessor api g c).2.primary = g.primary := by
  simp only [RealtimeAddProcessor]
  split_ifs <;> rfl

/-- On a recruited group the call either fails and changes nothing, or
succeeds and appends the instance `ProcessInitialize` accepted. -/
theorem RealtimeAddProcessor_cases (api : NativeAPI U S) (g : AudioUnitInstance U)
    (c : AddCall U S) (hr : g.mRecruited = true) :
    ((initNewProcessor api g.primary c).1 = false ∧ RealtimeAddProcessor api g c = (false, g)) ∨
    ((initNewProcessor api g.primary c).1 = true ∧
      RealtimeAddProcessor api g c =
        (true, { g with mSlaves := g.mSlaves ++ [(initNewProcessor api g.primary c).2] })) := by
  unfold RealtimeAddProcessor
  cases h : (initNewProcessor api g.primary c).1 <;> simp [hr, h]

/-- When every call of a run on a recruited group succeeds, the run appends
one initialised instance per call, in call order. -/
theorem addProcessors_all_ok (api : NativeAPI U S) (calls : List (AddCall U S)) :
    ∀ g : AudioUnitInstance U, g.mRecruited = true → (addProcessors api g calls).1 = true →
      (addProcessors api g calls).2 =
        { g with
          mSlaves := g.mSlaves ++ calls.map fun c => (initNewProcessor api g.primary c).2 } := by
  induction calls with
  | nil => intro g _ _; simp [addProcessors]
  | cons c cs ih =>
    intro g hr hall
    simp only [addProcessors, Bool.and_eq_true] at hall ⊢
    rcases RealtimeAddProcessor_cases api g c hr with ⟨-, h2⟩ | ⟨-, h2⟩
    · rw [h2] at hall
      exact absurd hall.1 Bool.false_ne_true
    · rw [h2] at hall ⊢
      dsimp only at hall ⊢
      rw [ih { g with mSlaves := g.mSlaves ++ [(initNewProcessor api g.primary c).2] } hr hall.2]
      simp

theorem setInstance_instances (g : AudioUnitInstance U) (i : Nat) (x : InstanceState U) :
    (g.setInstance i x).instances = g.instances.set i x := by
  cases i <;> rfl

/-- On a recruited group `RealtimeProcess` renders on the instance at position
`group` of `instances` and puts the result back at that position. -/
theorem RealtimeProcess_at (api : NativeAPI U S) (g : AudioUnitInstance U) (group : Nat)
    (a : InstanceState U) (hr : g.mRecruited = true) (ha : g.instances[group]? = some a)
    (inbuf outbuf : List Ptr) (n : Nat) :
    RealtimeProcess api g group inbuf outbuf n =
      (ProcessBlock api a inbuf outbuf n).map fun r => (r.1, g.setInstance group r.2) := by
  cases group with
  | zero =>
    have : g.primary = a := by simpa [AudioUnitInstance.instances] using ha
    subst this
    unfold RealtimeProcess
    simp only [hr, Bool.not_true, Bool.false_eq_true, if_false, if_true]
    cases ProcessBlock api g.primary inbuf outbuf n <;>
      simp [AudioUnitInstance.setInstance, hr]
  | succ k =>
    have hk : g.mSlaves[k]? = some a := by simpa [AudioUnitInstance.instances] using ha
    unfold RealtimeProcess
    simp only [hr, Bool.not_true, Bool.false_eq_true, if_false, Nat.succ_ne_zero,
      Nat.add_sub_cancel, hk]
    cases ProcessBlock api a inbuf outbuf n <;>
      simp [AudioUnitInstance.setInstance, hr]

/-! ## Helper lemmas: suspend and resume -/

/-- `RealtimeSuspend` is the early-return loop run over the primary followed by
the slaves. -/
theorem RealtimeSuspend_eq_loop (api : NativeAPI U S) (g : AudioUnitInstance U) :
    (RealtimeSuspend api g).1 = (bypassSlaves api true g.instances).1 ∧
    (RealtimeSuspend api g).2.instances = (bypassSlaves api true g.instances).2 ∧
    (RealtimeSuspend api g).2.mRecruited = g.mRecruited := by
  simp only [RealtimeSuspend, AudioUnitInstance.instances, bypassSlaves]
  split_ifs <;> exact ⟨rfl, rfl, rfl⟩

/-- `RealtimeResume` is the early-return loop run over the primary followed by
the slaves. -/
theorem RealtimeResume_eq_loop (api : NativeAPI U S) (g : AudioUnitInstance U) :
    (RealtimeResume api g).1 = (bypassSlaves api false g.instances).1 ∧
    (RealtimeResume api g).2.instances = (bypassSlaves api false g.instances).2 ∧
    (RealtimeResume api g).2.mRecruited = g.mRecruited := by
  simp only [RealtimeResume, AudioUnitInstance.instances, bypassSlaves]
  split_ifs <;> exact ⟨rfl, rfl, rfl⟩

theorem bypassSlaves_length (api : NativeAPI U S) (b : Bool) :
    ∀ l : List (InstanceState U), (bypassSlaves api b l).2.length = l.length := by
  intro l
  induction l with
  | nil => rfl
  | cons x xs ih =>
    simp only [bypassSlaves]
    split_ifs
    · rfl
    · simp [ih]

theorem bypassSlaves_true_iff (api : NativeAPI U S) (b : Bool) :
    ∀ l : List (InstanceState U),
      (bypassSlaves api b l).1 = true ↔ ∀ x ∈ l, (BypassEffect api x b).1 = true := by
  intro l
  induction l with
  | nil => simp [bypassSlaves]
  | cons x xs ih =>
    simp only [bypassSlaves, List.mem_cons, forall_eq_or_imp]
    split_ifs with h
    · have : (BypassEffect api x b).1 = false := by simpa using h
      simp [this]
    · have : (BypassEffect api x b).1 = true := by simpa using h
      simp [this, ih]

theorem bypassSlaves_all (api : NativeAPI U S) (b : Bool) :
    ∀ l : List (InstanceState U), (bypassSlaves api b l).1 = true →
      (bypassSlaves api b l).2 = l.map fun x => (BypassEffect api x b).2 := by
  intro l
  induction l with
  | nil => intro _; rfl
  | cons x xs ih =>
    simp only [bypassSlaves, List.map_cons]
    split_ifs with h
    · intro hf
      simp at hf
    · intro hq
      rw [ih hq]

/-- When the instance at position `k` is the first whose bypass change fails,
the loop reports failure, positions up to `k` hold the attempted instances and
positions past `k` are as before. -/
theorem bypassSlaves_first_failure (api : NativeAPI U S) (b : Bool) :
    ∀ (l : List (InstanceState U)) (k : Nat) (x : InstanceState U), l[k]? = some x →
      (BypassEffect api x b).1 = false →
      (∀ i y, i < k → l[i]? = some y → (BypassEffect api y b).1 = true) →
        (bypassSlaves api b l).1 = false ∧
        (∀ i y, i ≤ k → l[i]? = some y →
          (bypassSlaves api b l).2[i]? = some (BypassEffect api y b).2) ∧
        (∀ i, k < i → (bypassSlaves api b l).2[i]? = l[i]?) := by
  intro l
  induction l with
  | nil => intro k x hx; simp at hx
  | cons a as ih =>
    intro k x hx hfail hbefore
    cases k with
    | zero =>
      have hax : a = x := by simpa using hx
      subst hax
      have e : bypassSlaves api b (a :: as) = (false, (BypassEffect api a b).2 :: as) := by
        simp [bypassSlaves, hfail]
      rw [e]
      refine ⟨rfl, ?_, ?_⟩
      · intro i y hi hy
        have hi0 : i = 0 := by omega
        subst hi0
        have : a = y := by simpa using hy
        subst this
        simp
      · intro i hi
        cases i with
        | zero => omega
        | succ i => simp
    | succ k =>
      have ha : (BypassEffect api a b).1 = true := hbefore 0 a (by omega) (by simp)
      have hx2 : as[k]? = some x := by simpa using hx
      obtain ⟨h1, h2, h3⟩ := ih k x hx2 hfail
        (fun i y hi hy => hbefore (i + 1) y (by omega) (by simpa using hy))
      have e : bypassSlaves api b (a :: as) =
          ((bypassSlaves api b as).1, (BypassEffect api a b).2 :: (bypassSlaves api b as).2) := by
        simp [bypassSlaves, ha]
      rw [e]
      refine ⟨h1, ?_, ?_⟩
      · intro i y hi hy
        cases i with
        | zero =>
          have : a = y := by simpa using hy
          subst this
          simp
        | succ i =>
          have := h2 i y (by omega) (by simpa using hy)
          simpa using this
      · intro i hi
        cases i with
        | zero => omega
        | succ i =>
          have := h3 i (by omega)
          simpa using this

/-! ## Helper lemmas: the render callback -/

theorem copyPointers_spec (src : List AudioBuffer) :
    ∀ (n i : Nat) (dst : List AudioBuffer), i + n ≤ src.length → i + n ≤ dst.length →
      ∃ out, copyPointers src n i dst = some out ∧ out.length = dst.length ∧
        (∀ j : Nat, i ≤ j → j < i + n →
          ∃ s d, src[j]? = some s ∧ dst[j]? = some d ∧
            out[j]? = some { d with mData := s.mData }) ∧
        (∀ j : Nat, j < i ∨ i + n ≤ j → out[j]? = dst[j]?) := by
  intro n
  induction n with
  | zero =>
    intro i dst _ _
    exact ⟨dst, rfl, rfl, fun j h1 h2 => by omega, fun j _ => rfl⟩
  | succ n ih =>
    intro i dst hs hd
    have his : i < src.length := by omega
    have hid : i < dst.length := by omega
    obtain ⟨out, h2, hlen, hin, hout⟩ :=
      ih (i + 1) (dst.set i { dst[i] with mData := src[i].mData }) (by omega)
        (by simp; omega)
    refine ⟨out, ?_, by simpa using hlen, ?_, ?_⟩
    · simp [copyPointers, List.getElem?_eq_getElem his, List.getElem?_eq_getElem hid, h2]
    · intro j h1 h3
      by_cases hj : j = i
      · subst hj
        refine ⟨src[j], dst[j], List.getElem?_eq_getElem his, List.getElem?_eq_getElem hid, ?_⟩
        rw [hout j (Or.inl (by omega))]
        simp [List.getElem?_set, hid]
      · obtain ⟨s, d, e1, e2, e3⟩ := hin j (by omega) (by omega)
        refine ⟨s, d, e1, ?_, e3⟩
        rw [← e2]
        have : i ≠ j := fun h => hj h.symm
        simp [List.getElem?_set, this]
    · intro j hj
      rw [hout j (by omega)]
      have : i ≠ j := by omega
      simp [List.getElem?_set, this]

theorem clearPointers_spec :
    ∀ (n i : Nat) (dst : List AudioBuffer), i + n ≤ dst.length →
      ∃ out, clearPointers n i dst = some out ∧ out.length = dst.length ∧
        (∀ j : Nat, i ≤ j → j < i + n →
          ∃ d, dst[j]? = some d ∧ out[j]? = some { d with mData := nullptr }) ∧
        (∀ j : Nat, j < i ∨ i + n ≤ j → out[j]? = dst[j]?) := by
  intro n
  induction n with
  | zero =>
    intro i dst _
    exact ⟨dst, rfl, rfl, fun j h1 h2 => by omega, fun j _ => rfl⟩
  | succ n ih =>
    intro i dst hd
    have hid : i < dst.length := by omega
    obtain ⟨out, h2, hlen, hin, hout⟩ :=
      ih (i + 1) (dst.set i { dst[i] with mData := nullptr }) (by simp; omega)
    refine ⟨out, ?_, by simpa using hlen, ?_, ?_⟩
    · simp [clearPointers, List.getElem?_eq_getElem hid, h2]
    · intro j h1 h3
      by_cases hj : j = i
      · subst hj
        refine ⟨dst[j], List.getElem?_eq_getElem hid, ?_⟩
        rw [hout j (Or.inl (by omega))]
        simp [List.getElem?_set, hid]
      · obtain ⟨d, e2, e3⟩ := hin j (by omega) (by omega)
        refine ⟨d, ?_, e3⟩
        rw [← e2]
        have : i ≠ j := fun h => hj h.symm
        simp [List.getElem?_set, this]
    · intro j hj
      rw [hout j (by omega)]
      have : i ≠ j := by omega
      simp [List.getElem?_set, this]

/-- `Render` on a buffer list whose declared slots exist: it returns `0`; a
slot below both the declared count and the descriptor count gets the pointer
of the descriptor of the same index, a declared slot past the descriptors gets
the null pointer, other slots and all other fields are untouched. -/
theorem Render_spec (inst : InstanceState U) (ioData : AudioBufferList)
    (hio : ioData.mNumberBuffers ≤ ioData.mBuffers.length) :
    ∃ out, Render inst ioData = some (0, { ioData with mBuffers := out }) ∧
      out.length = ioData.mBuffers.length ∧
      (∀ j : Nat, j < ioData.mNumberBuffers → j < Count inst.mInputList →
        ∃ s d, (inst.mInputList.getD [])[j]? = some s ∧ ioData.mBuffers[j]? = some d ∧
          out[j]? = some { d with mData := s.mData }) ∧
      (∀ j : Nat, Count inst.mInputList ≤ j → j < ioData.mNumberBuffers →
        ∃ d, ioData.mBuffers[j]? = some d ∧ out[j]? = some { d with mData := nullptr }) ∧
      (∀ j : Nat, ioData.mNumberBuffers ≤ j → out[j]? = ioData.mBuffers[j]?) := by
  have hc : Count inst.mInputList = (inst.mInputList.getD []).length := by
    cases inst.mInputList <;> rfl
  obtain ⟨b1, h1, hl1, hin1, hout1⟩ :=
    copyPointers_spec (inst.mInputList.getD [])
      (min ioData.mNumberBuffers (Count inst.mInputList)) 0 ioData.mBuffers
      (by rw [hc]; omega) (by omega)
  obtain ⟨b2, h2, hl2, hin2, hout2⟩ :=
    clearPointers_spec
      (ioData.mNumberBuffers - min ioData.mNumberBuffers (Count inst.mInputList))
      (min ioData.mNumberBuffers (Count inst.mInputList)) b1 (by omega)
  refine ⟨b2, by simp only [Render, h1, h2], by omega, ?_, ?_, ?_⟩
  · intro j hj1 hj2
    obtain ⟨s, d, e1, e2, e3⟩ := hin1 j (Nat.zero_le j) (by omega)
    exact ⟨s, d, e1, e2, by rw [hout2 j (Or.inl (by omega))]; exact e3⟩
  · intro j hj1 hj2
    obtain ⟨d, e2, e3⟩ := hin2 j (by omega) (by omega)
    exact ⟨d, by rw [← e2]; exact (hout1 j (Or.inr (by omega))).symm, e3⟩
  · intro j hj
    rw [hout2 j (Or.inr (by omega)), hout1 j (Or.inr (by omega))]

/-! ## Dispatch -/

/-- C1. `RealtimeProcess` (Dispatch): when the primary is not recruited, or the
group index is at least 1 and `group - 1` is no index of `mSlaves`, the result
is 0 frames and the group is unchanged; otherwise the result is that of
`ProcessBlock` on the primary (`group = 0`) or on `mSlaves[group - 1]`
(`group ≥ 1`), with the rendered instance put back in its place and nothing
else changed. -/
theorem RealtimeProcess_dispatch (api : NativeAPI U S) (g : AudioUnitInstance U) (group : Nat)
    (inbuf outbuf : List Ptr) (numSamples : Nat) :
    ((g.mRecruited = false ∨ (1 ≤ group ∧ ¬ group - 1 < g.mSlaves.length)) →
        RealtimeProcess api g group inbuf outbuf numSamples = some (0, g)) ∧
    (g.mRecruited = true → group = 0 →
        RealtimeProcess api g group inbuf outbuf numSamples =
          (ProcessBlock api g.primary inbuf outbuf numSamples).map
            fun r => (r.1, { g with primary := r.2 })) ∧
    (g.mRecruited = true → 1 ≤ group → ∀ h : group - 1 < g.mSlaves.length,
        RealtimeProcess api g group inbuf outbuf numSamples =
          (ProcessBlock api (g.mSlaves.get ⟨group - 1, h⟩) inbuf outbuf numSamples).map
            fun r => (r.1, { g with mSlaves := g.mSlaves.set (group - 1) r.2 })) := by
  refine ⟨?_, ?_, ?_⟩
  · rintro (h | ⟨h1, h2⟩)
    · simp [RealtimeProcess, h]
    · unfold RealtimeProcess
      have hne : group ≠ 0 := by omega
      have hnone : g.mSlaves[group - 1]? = none := List.getElem?_eq_none (by omega)
      cases hr : g.mRecruited <;> simp [hne, hnone]
  · intro h h0
    subst h0
    unfold RealtimeProcess
    cases hp : ProcessBlock api g.primary inbuf outbuf numSamples <;> simp [h, hp]
  · intro h h1 hlt
    unfold RealtimeProcess
    have hne : group ≠ 0 := by omega
    have hsome : g.mSlaves[group - 1]? = some (g.mSlaves.get ⟨group - 1, hlt⟩) := by
      simp [List.getElem?_eq_getElem hlt]
    simp only [h, hne, hsome, Bool.not_true, Bool.false_eq_true, if_false]
    cases ProcessBlock api (g.mSlaves.get ⟨group - 1, hlt⟩) inbuf outbuf numSamples <;> rfl

theorem RealtimeProcess_dispatch_witness :
    RealtimeProcess stub stubGroup 3 [11, 12] [21, 22] 256 = some (0, stubGroup) ∧
    RealtimeProcess stub stubGroup 2 [11, 12] [21, 22] 256 =
      (ProcessBlock stub (stubInstance 3000 goodUnit 2 2) [11, 12] [21, 22] 256).map
        fun r => (r.1, { stubGroup with mSlaves := stubGroup.mSlaves.set 1 r.2 }) :=
  ⟨(RealtimeProcess_dispatch stub stubGroup 3 [11, 12] [21, 22] 256).1
      (Or.inr ⟨by decide, by decide⟩),
    (RealtimeProcess_dispatch stub stubGroup 2 [11, 12] [21, 22] 256).2.2 rfl (by decide)
      (by decide)⟩

/-! ## Rendering one block -/

/-- C5. `ProcessInitialize` returns success exactly when the settings store,
`SetRateAndChannels`, the native initialise, the render-callback registration,
the native reset and the un-bypass all succeed and the channel counts after
`SetRateAndChannels` are the ones before it.  In particular changed channel
counts make it fail, and a failed settings store makes it return with only the
native state touched: no list allocated, no later call made. -/
theorem ProcessInitialize_success_iff (api : NativeAPI U S) (inst : InstanceState U)
    (settings : AudioUnitEffectSettings S) (sampleRate : Rat) :
    ((ProcessInitialize api inst settings sampleRate).1 = true ↔
      (initTrace api inst settings sampleRate).store.1 = true ∧
      (initTrace api inst settings sampleRate).rate.1 = true ∧
      (initTrace api inst settings sampleRate).init.1 = 0 ∧
      (initTrace api inst settings sampleRate).rate.2.2.1 = inst.mAudioIns ∧
      (initTrace api inst settings sampleRate).rate.2.2.2 = inst.mAudioOuts ∧
      (initTrace api inst settings sampleRate).callback.1 = 0 ∧
      (initTrace api inst settings sampleRate).reset.1 = 0 ∧
      (initTrace api inst settings sampleRate).unbypass.1 = 0) ∧
    (((initTrace api inst settings sampleRate).rate.2.2.1 ≠ inst.mAudioIns ∨
      (initTrace api inst settings sampleRate).rate.2.2.2 ≠ inst.mAudioOuts) →
      (ProcessInitialize api inst settings sampleRate).1 = false) ∧
    ((api.StoreSettings inst.mUnit settings).1 = false →
      ProcessInitialize api inst settings sampleRate =
        (false, { inst with mUnit := (api.StoreSettings inst.mUnit settings).2 })) := by
  have key : (ProcessInitialize api inst settings sampleRate).1 = true ↔
      (initTrace api inst settings sampleRate).store.1 = true ∧
      (initTrace api inst settings sampleRate).rate.1 = true ∧
      (initTrace api inst settings sampleRate).init.1 = 0 ∧
      (initTrace api inst settings sampleRate).rate.2.2.1 = inst.mAudioIns ∧
      (initTrace api inst settings sampleRate).rate.2.2.2 = inst.mAudioOuts ∧
      (initTrace api inst settings sampleRate).callback.1 = 0 ∧
      (initTrace api inst settings sampleRate).reset.1 = 0 ∧
      (initTrace api inst settings sampleRate).unbypass.1 = 0 := by
    obtain ⟨hi, ho, hs, -, -, -, -⟩ :=
      afterAllocation_fields api inst (api.StoreSettings inst.mUnit settings).2
    unfold ProcessInitialize initTrace
    simp only [hi, ho, hs]
    by_cases h1 : (api.StoreSettings inst.mUnit settings).1 = true
    swap
    · simp [h1]
    simp only [h1, Bool.not_true, Bool.false_eq_true, if_false, true_and]
    split_ifs with h2 h3 h4 h5 h6 h7
    · simp only [false_iff]
      rintro ⟨e1, -⟩
      simp [e1] at h2
    · simp only [false_iff]
      rintro ⟨-, e2, -⟩
      exact h3 e2
    · simp only [false_iff]
      rintro ⟨-, -, e3, e4, -⟩
      rcases h4 with h4 | h4
      · exact h4 e3.symm
      · exact h4 e4.symm
    · simp only [false_iff]
      rintro ⟨-, -, -, -, e5, -⟩
      exact h5 e5
    · simp only [false_iff]
      rintro ⟨-, -, -, -, -, e6, -⟩
      exact h6 e6
    · rw [BypassEffect_false] at h7
      simp only [false_iff]
      rintro ⟨-, -, -, -, -, -, e7⟩
      simp only [afterRate, Bool.not_eq_true', decide_eq_false_iff_not] at h7
      exact h7 e7
    · rw [BypassEffect_false] at h7
      simp only [true_iff]
      simp only [afterRate, Bool.not_eq_true', decide_eq_false_iff_not, not_not] at h7
      refine ⟨by simpa using h2, not_not.mp h3, ?_, ?_, not_not.mp h5, not_not.mp h6, h7⟩
      · exact (not_not.mp fun h => h4 (Or.inl h)).symm
      · exact (not_not.mp fun h => h4 (Or.inr h)).symm
  refine ⟨key, ?_, ?_⟩
  · intro h
    cases hr : (ProcessInitialize api inst settings sampleRate).1
    · rfl
    · obtain ⟨-, -, -, h1, h2, -⟩ := key.mp hr
      rcases h with h | h
      · exact absurd h1 h
      · exact absurd h2 h
  · intro h
    simp [ProcessInitialize, h]

theorem ProcessInitialize_success_iff_witness :
    (ProcessInitialize stub monoStub ⟨(), 0⟩ 44100).1 = false ∧
    ProcessInitialize stub refusingStub ⟨(), 0⟩ 44100 =
      (false, { refusingStub with
        mUnit := (stub.StoreSettings refusingStub.mUnit ⟨(), 0⟩).2 }) :=
  ⟨(ProcessInitialize_success_iff stub monoStub ⟨(), 0⟩ 44100).2.1 (Or.inl (by decide)),
    (ProcessInitialize_success_iff stub refusingStub ⟨(), 0⟩ 44100).2.2 (by decide)⟩

/-! ## Growing the group -/

/-- C4. On a recruited group, when `ProcessInitialize` fails on the new
instance, `RealtimeAddProcessor` returns failure and the group is unchanged
(slave list and recruited flag included), so `RealtimeProcess` answers as
before for every index.  Consequently, after any run of calls on a group with
no slaves, every instance in the slave list is the result of a
`ProcessInitialize` that returned success. -/
theorem RealtimeAddProcessor_publishes_initialized (api : NativeAPI U S) :
    (∀ (g : AudioUnitInstance U) (c : AddCall U S), g.mRecruited = true →
      (initNewProcessor api g.primary c).1 = false →
        RealtimeAddProcessor api g c = (false, g) ∧
        ∀ group inbuf outbuf n,
          RealtimeProcess api (RealtimeAddProcessor api g c).2 group inbuf outbuf n =
            RealtimeProcess api g group inbuf outbuf n) ∧
    (∀ (g : AudioUnitInstance U) (calls : List (AddCall U S)), g.mSlaves = [] →
      ∀ s ∈ (addProcessors api g calls).2.mSlaves,
        ∃ c ∈ calls, initNewProcessor api g.primary c = (true, s)) := by
  constructor
  · intro g c hr hf
    rcases RealtimeAddProcessor_cases api g c hr with ⟨-, h2⟩ | ⟨h1, -⟩
    · exact ⟨h2, fun _ _ _ _ => by rw [h2]⟩
    · rw [hf] at h1
      exact absurd h1 Bool.false_ne_true
  · have gen : ∀ (calls : List (AddCall U S)) (g : AudioUnitInstance U),
        ∀ s ∈ (addProcessors api g calls).2.mSlaves,
          s ∈ g.mSlaves ∨ ∃ c ∈ calls, initNewProcessor api g.primary c = (true, s) := by
      intro calls
      induction calls with
      | nil => intro g s hs; exact Or.inl hs
      | cons c cs ih =>
        intro g s hs
        simp only [addProcessors] at hs
        rcases ih _ s hs with h | ⟨d, hd, he⟩
        · by_cases hr : g.mRecruited = true
          · rcases RealtimeAddProcessor_cases api g c hr with ⟨-, h2⟩ | ⟨h1, h2⟩
            · rw [h2] at h
              exact Or.inl h
            · rw [h2] at h
              rcases List.mem_append.mp h with h | h
              · exact Or.inl h
              · refine Or.inr ⟨c, List.mem_cons_self _ _, ?_⟩
                rw [List.mem_singleton] at h
                exact Prod.ext h1 h.symm
          · have : RealtimeAddProcessor api g c = (true, { g with mRecruited := true }) := by
              simp [RealtimeAddProcessor, hr]
            rw [this] at h
            exact Or.inl h
        · rw [RealtimeAddProcessor_primary] at he
          exact Or.inr ⟨d, List.mem_cons_of_mem _ hd, he⟩
    intro g calls hnil s hs
    rcases gen calls g s hs with h | h
    · rw [hnil] at h
      exact absurd h (List.not_mem_nil s)
    · exact h

theorem RealtimeAddProcessor_publishes_initialized_witness :
    (RealtimeAddProcessor stub stubGroup refusedCall = (false, stubGroup) ∧
      ∀ group inbuf outbuf n,
        RealtimeProcess stub (RealtimeAddProcessor stub stubGroup refusedCall).2 group inbuf
            outbuf n =
          RealtimeProcess stub stubGroup group inbuf outbuf n) ∧
    ∀ s ∈ (addProcessors stub freshGroup
        [goodCall 1, goodCall 2000, refusedCall, goodCall 3000]).2.mSlaves,
      ∃ c ∈ [goodCall 1, goodCall 2000, refusedCall, goodCall 3000],
        initNewProcessor stub freshGroup.primary c = (true, s) :=
  ⟨(RealtimeAddProcessor_publishes_initialized stub).1 stubGroup refusedCall rfl (by decide),
    (RealtimeAddProcessor_publishes_initialized stub).2 freshGroup _ rfl⟩

/-- C3. From a group that is not recruited and has no slaves, one
`RealtimeAddProcessor` call recruits the primary; after `N` further calls that
all succeed the group has exactly `N` slaves, the `k`-th of them being the one
the `k`-th call initialised.  For indices `i < j ≤ N`,
`RealtimeProcess` renders on the instance at position `i`, respectively `j`,
and writing one position leaves the other untouched; when the allocator hands
out pairwise distinct addresses the two instances have distinct addresses. -/
theorem addProcessors_distinct_dispatch (api : NativeAPI U S) (g0 : AudioUnitInstance U)
    (first : AddCall U S) (calls : List (AddCall U S))
    (h0 : g0.mRecruited = false) (hs : g0.mSlaves = [])
    (hall : (addProcessors api (RealtimeAddProcessor api g0 first).2 calls).1 = true) :
    RealtimeAddProcessor api g0 first = (true, { g0 with mRecruited := true }) ∧
    (addProcessors api (RealtimeAddProcessor api g0 first).2 calls).2.mRecruited = true ∧
    (addProcessors api (RealtimeAddProcessor api g0 first).2 calls).2.mSlaves.length =
      calls.length ∧
    (addProcessors api (RealtimeAddProcessor api g0 first).2 calls).2.instances =
      g0.primary :: calls.map (fun c => (initNewProcessor api g0.primary c).2) ∧
    ∀ i j, i < j → j ≤ calls.length →
      ∃ a b,
        (addProcessors api (RealtimeAddProcessor api g0 first).2 calls).2.instances[i]? =
          some a ∧
        (addProcessors api (RealtimeAddProcessor api g0 first).2 calls).2.instances[j]? =
          some b ∧
        (∀ inbuf outbuf n,
          RealtimeProcess api (addProcessors api (RealtimeAddProcessor api g0 first).2 calls).2
              i inbuf outbuf n =
            (ProcessBlock api a inbuf outbuf n).map (fun r =>
              (r.1, (addProcessors api (RealtimeAddProcessor api g0 first).2 calls).2.setInstance
                i r.2)) ∧
          RealtimeProcess api (addProcessors api (RealtimeAddProcessor api g0 first).2 calls).2
              j inbuf outbuf n =
            (ProcessBlock api b inbuf outbuf n).map (fun r =>
              (r.1, (addProcessors api (RealtimeAddProcessor api g0 first).2 calls).2.setInstance
                j r.2))) ∧
        (∀ x,
          ((addProcessors api (RealtimeAddProcessor api g0 first).2 calls).2.setInstance
            i x).instances[j]? = some b ∧
          ((addProcessors api (RealtimeAddProcessor api g0 first).2 calls).2.setInstance
            j x).instances[i]? = some a) ∧
        ((g0.primary.self :: calls.map (fun c => c.addr)).Nodup → a.self ≠ b.self) := by
  have hfirst : RealtimeAddProcessor api g0 first = (true, { g0 with mRecruited := true }) := by
    simp [RealtimeAddProcessor, h0]
  rw [hfirst] at hall ⊢
  dsimp only at hall ⊢
  have hfin := addProcessors_all_ok api calls { g0 with mRecruited := true } rfl hall
  rw [hfin]
  dsimp only
  have hinst : (AudioUnitInstance.mk g0.primary
      (g0.mSlaves ++ calls.map fun c => (initNewProcessor api g0.primary c).2) true).instances =
      g0.primary :: calls.map (fun c => (initNewProcessor api g0.primary c).2) := by
    simp [AudioUnitInstance.instances, hs]
  have hlen : (g0.primary :: calls.map (fun c => (initNewProcessor api g0.primary c).2)).length
      = calls.length + 1 := by simp
  have hself : (g0.primary :: calls.map (fun c => (initNewProcessor api g0.primary c).2)).map
      (fun x => x.self) = g0.primary.self :: calls.map (fun c => c.addr) := by
    simp only [List.map_cons, List.map_map, List.cons.injEq, true_and]
    apply List.map_congr_left
    intro c _
    exact (ProcessInitialize_keeps api _ _ _).1
  refine ⟨rfl, rfl, by simp [hs], hinst, ?_⟩
  intro i j hij hj
  rw [hinst]
  have hi' : i < (g0.primary :: calls.map
      (fun c => (initNewProcessor api g0.primary c).2)).length := by omega
  have hj' : j < (g0.primary :: calls.map
      (fun c => (initNewProcessor api g0.primary c).2)).length := by omega
  refine ⟨_, _, List.getElem?_eq_getElem hi', List.getElem?_eq_getElem hj', ?_, ?_, ?_⟩
  · intro inbuf outbuf n
    exact ⟨RealtimeProcess_at api _ i _ rfl (by rw [hinst]; exact List.getElem?_eq_getElem hi')
        inbuf outbuf n,
      RealtimeProcess_at api _ j _ rfl (by rw [hinst]; exact List.getElem?_eq_getElem hj')
        inbuf outbuf n⟩
  · intro x
    rw [setInstance_instances, setInstance_instances, hinst]
    constructor
    · rw [List.getElem?_set_ne (by omega)]
      exact List.getElem?_eq_getElem hj'
    · rw [List.getElem?_set_ne (by omega)]
      exact List.getElem?_eq_getElem hi'
  · intro hnd heq
    rw [← hself] at hnd
    have hi2 : i < ((g0.primary :: calls.map
        (fun c => (initNewProcessor api g0.primary c).2)).map (fun x => x.self)).length := by
      simpa using hi'
    have hj2 : j < ((g0.primary :: calls.map
        (fun c => (initNewProcessor api g0.primary c).2)).map (fun x => x.self)).length := by
      simpa using hj'
    have := (@List.Nodup.getElem_inj_iff _ _ hnd i hi2 j hj2).mp
      (by rw [List.getElem_map, List.getElem_map]; exact heq)
    omega

theorem addProcessors_distinct_dispatch_witness :
    (addProcessors stub (RealtimeAddProcessor stub freshGroup (goodCall 1)).2
      [goodCall 2000, goodCall 3000]).2.mSlaves.length = 2 :=
  (addProcessors_distinct_dispatch stub freshGroup (goodCall 1) [goodCall 2000, goodCall 3000]
    rfl rfl (by decide)).2.2.1

/-! ## Suspend and resume -/

/-- C6. `RealtimeSuspend` (bypass on) and `RealtimeResume` (bypass off) try the
bypass change on the primary, then on the slaves in index order, stop at the
first instance where it fails and return failure with every later instance
untouched, and return success only when it succeeded on every instance. -/
theorem RealtimeSuspend_Resume_stop_at_first_failure (api : NativeAPI U S)
    (g : AudioUnitInstance U) :
    StopsAtFirstFailure api true g (RealtimeSuspend api g) ∧
    StopsAtFirstFailure api false g (RealtimeResume api g) := by
  obtain ⟨s1, s2, s3⟩ := RealtimeSuspend_eq_loop api g
  obtain ⟨r1, r2, r3⟩ := RealtimeResume_eq_loop api g
  constructor
  · refine ⟨s3, ?_, ?_, ?_, ?_⟩
    · rw [s2, bypassSlaves_length]
    · rw [s1]
      exact bypassSlaves_true_iff api true _
    · rw [s1, s2]
      exact bypassSlaves_all api true _
    · rw [s1, s2]
      exact bypassSlaves_first_failure api true _
  · refine ⟨r3, ?_, ?_, ?_, ?_⟩
    · rw [r2, bypassSlaves_length]
    · rw [r1]
      exact bypassSlaves_true_iff api false _
    · rw [r1, r2]
      exact bypassSlaves_all api false _
    · rw [r1, r2]
      exact bypassSlaves_first_failure api false _

theorem RealtimeSuspend_Resume_stop_at_first_failure_witness :
    ((RealtimeSuspend stub faultyGroup).1 = false ∧
    (∀ (i : Nat) (y : InstanceState StubUnit), i ≤ 1 → faultyGroup.instances[i]? = some y →
      (RealtimeSuspend stub faultyGroup).2.instances[i]? =
        some (BypassEffect stub y true).2) ∧
    (∀ i : Nat, 1 < i →
      (RealtimeSuspend stub faultyGroup).2.instances[i]? = faultyGroup.instances[i]?)) ∧
    (RealtimeSuspend stub faultyGroup).2.instances.map (fun x => x.mUnit.bypassCalls) =
      [1, 1, 0] :=
  ⟨(RealtimeSuspend_Resume_stop_at_first_failure stub faultyGroup).1.2.2.2.2 1
    (stubInstance 2000 { goodUnit with bypassOk := false } 2 2) rfl (by decide)
    (fun i y hi hy => by
      have h0 : i = 0 := by omega
      subst h0
      have hy2 : stubInstance 1000 goodUnit 2 2 = y := by
        simpa [faultyGroup, AudioUnitInstance.instances] using hy
      subst hy2
      decide), by decide⟩

/-! ## Settings propagation -/

/-- C7. `RealtimeProcessStart` returns true, keeps the recruited flag, and for
every instance of the group (primary and slaves): when the instance is not the
settings' source its native state is the result of one `StoreSettings` call on
its previous native state and nothing else changes; when it is the source it
is unchanged. -/
theorem RealtimeProcessStart_skips_source (api : NativeAPI U S) (g : AudioUnitInstance U)
    (settings : AudioUnitEffectSettings S) :
    (RealtimeProcessStart api g settings).1 = true ∧
    (RealtimeProcessStart api g settings).2.mRecruited = g.mRecruited ∧
    (RealtimeProcessStart api g settings).2.instances.length = g.instances.length ∧
    ∀ (i : Nat) (x : InstanceState U), g.instances[i]? = some x →
      ∃ y, (RealtimeProcessStart api g settings).2.instances[i]? = some y ∧
        (x.self ≠ settings.pSource →
          y = { x with mUnit := (api.StoreSettings x.mUnit settings).2 }) ∧
        (x.self = settings.pSource → y = x) := by
  have hinst : (RealtimeProcessStart api g settings).2.instances =
      g.instances.map (storeSettings api settings) := by
    simp [RealtimeProcessStart, AudioUnitInstance.instances]
  refine ⟨rfl, rfl, by rw [hinst, List.length_map], ?_⟩
  intro i x hx
  refine ⟨storeSettings api settings x, by rw [hinst, List.getElem?_map, hx]; rfl, ?_, ?_⟩
  · intro hne
    simp [storeSettings, hne]
  · intro heq
    simp [storeSettings, heq]

theorem RealtimeProcessStart_skips_source_witness :
    (∃ y, (RealtimeProcessStart stub stubGroup ⟨(), 2000⟩).2.instances[0]? = some y ∧
      (stubGroup.primary.self ≠ 2000 →
        y = { stubGroup.primary with
          mUnit := (stub.StoreSettings stubGroup.primary.mUnit ⟨(), 2000⟩).2 }) ∧
      (stubGroup.primary.self = 2000 → y = stubGroup.primary)) ∧
    (RealtimeProcessStart stub stubGroup ⟨(), 2000⟩).2.instances.map
      (fun x => x.mUnit.stores) = [1, 0, 1] :=
  ⟨(RealtimeProcessStart_skips_source stub stubGroup ⟨(), 2000⟩).2.2.2 0 stubGroup.primary rfl,
    by decide⟩

/-! ## Finalisation -/

/-- C8 (amended). `RealtimeFinalize` first finalizes every slave (both buffer
lists of each slave released, nothing else touched), then clears the slave
list, then un-recruits the primary, and last finalizes the primary.  It
returns success; afterwards the slave list is empty, the recruited flag is
false, both buffer lists of the primary are released and nothing else of the
primary changed, so that the next `RealtimeAddProcessor` call succeeds by
recruiting the primary and creates no slave.  The group it ends with is the
one the order worded in the spec ends with. -/
theorem RealtimeFinalize_resets (api : NativeAPI U S) (g : AudioUnitInstance U)
    (c : AddCall U S) :
    (RealtimeFinalize g).afterLoop.primary = g.primary ∧
    (RealtimeFinalize g).afterLoop.mRecruited = g.mRecruited ∧
    (RealtimeFinalize g).afterLoop.mSlaves.length = g.mSlaves.length ∧
    (∀ (k : Nat) (s : InstanceState U), g.mSlaves[k]? = some s →
      (RealtimeFinalize g).afterLoop.mSlaves[k]? =
        some { s with mOutputList := none, mInputList := none }) ∧
    (RealtimeFinalize g).afterClear = { (RealtimeFinalize g).afterLoop with mSlaves := [] } ∧
    (RealtimeFinalize g).afterUnrecruit =
      { (RealtimeFinalize g).afterClear with mRecruited := false } ∧
    (RealtimeFinalize g).final =
      { (RealtimeFinalize g).afterUnrecruit with
        primary := { g.primary with mOutputList := none, mInputList := none } } ∧
    (RealtimeFinalize g).result = true ∧
    (RealtimeFinalize g).final.mSlaves = [] ∧
    (RealtimeFinalize g).final.mRecruited = false ∧
    (RealtimeFinalize g).final.primary.mInputList = none ∧
    (RealtimeFinalize g).final.primary.mOutputList = none ∧
    RealtimeAddProcessor api (RealtimeFinalize g).final c =
      (true, { (RealtimeFinalize g).final with mRecruited := true }) ∧
    (RealtimeAddProcessor api (RealtimeFinalize g).final c).2.mSlaves = [] ∧
    (FinalizeAllSpec g).getLast? = some (RealtimeFinalize g).final := by
  refine ⟨rfl, rfl, ?_, ?_, rfl, rfl, rfl, rfl, rfl, rfl, rfl, rfl, ?_, ?_, rfl⟩
  · simp [RealtimeFinalize]
  · intro k s hs
    simp [RealtimeFinalize, ProcessFinalize, List.getElem?_map, hs]
  · simp [RealtimeAddProcessor, RealtimeFinalize]
  · simp [RealtimeAddProcessor, RealtimeFinalize]

theorem RealtimeFinalize_resets_witness :
    (RealtimeFinalize stubGroup).afterLoop.mSlaves[1]? =
      some { stubInstance 3000 goodUnit 2 2 with mOutputList := none, mInputList := none } :=
  (RealtimeFinalize_resets stub stubGroup (goodCall 4000)).2.2.2.1 1
    (stubInstance 3000 goodUnit 2 2) rfl

/-- C8 as stated fails on the order of the steps: on a recruited group of a
primary and two slaves with allocated lists, when the slave list has been
cleared and the primary un-recruited the primary still holds both its buffer
lists, which are released only by the last step; the groups the call goes
through are not those of the order worded in the spec, in which the primary
is finalized while the two slaves are still in the list. -/
theorem RealtimeFinalize_resets_counterexample :
    (RealtimeFinalize stubGroup).afterUnrecruit.mSlaves = [] ∧
    (RealtimeFinalize stubGroup).afterUnrecruit.mRecruited = false ∧
    (RealtimeFinalize stubGroup).afterUnrecruit.primary.mInputList = AllocateCount 2 ∧
    (RealtimeFinalize stubGroup).afterUnrecruit.primary.mOutputList = AllocateCount 2 ∧
    (RealtimeFinalize stubGroup).final.primary.mInputList = none ∧
    (RealtimeFinalize stubGroup).final.primary.mOutputList = none ∧
    (FinalizeAllSpec stubGroup)[1]?.map (fun g => (g.primary.mInputList, g.mSlaves.length)) =
      some (none, 2) ∧
    (RealtimeFinalize stubGroup).states ≠ FinalizeAllSpec stubGroup := by
  decide

/-! ## The render callback -/

/-- C10. Take an instance with `c` input descriptors for its `c` input
channels, in the middle of a `ProcessBlock` call (state `i1`, both descriptor
loops done), and a buffer list of `n` slots.  `Render` returns `0`; every slot
`i < min n c` receives the pointer `inBlock[i]` that this `ProcessBlock` call
stored for input channel `i`; every slot `c ≤ i < n` receives the null pointer;
slots at index `n` and beyond are not written and the number of slots and all
other fields stay as they were.  No access is out of bounds: the result is
not the fault `none`. -/
theorem Render_hands_back_block_pointers (inst : InstanceState U)
    (inBlock outBlock : List Ptr) (blockLen : Nat) (ioData : AudioBufferList)
    (hc : Count inst.mInputList = inst.mAudioIns)
    (ho : inst.mAudioOuts ≤ Count inst.mOutputList)
    (hin : inst.mAudioIns ≤ inBlock.length) (hout : inst.mAudioOuts ≤ outBlock.length)
    (hio : ioData.mNumberBuffers ≤ ioData.mBuffers.length) :
    ∃ i1 out, prepareBlock inst inBlock outBlock blockLen = some i1 ∧
      Count i1.mInputList = inst.mAudioIns ∧
      RenderCallback i1 ioData = some (0, { ioData with mBuffers := out }) ∧
      out.length = ioData.mBuffers.length ∧
      (∀ i : Nat, i < min ioData.mNumberBuffers inst.mAudioIns →
        ∃ p d, inBlock[i]? = some p ∧ ioData.mBuffers[i]? = some d ∧
          out[i]? = some { d with mData := p }) ∧
      (∀ i : Nat, inst.mAudioIns ≤ i → i < ioData.mNumberBuffers →
        ∃ d, ioData.mBuffers[i]? = some d ∧ out[i]? = some { d with mData := nullptr }) ∧
      (∀ i : Nat, ioData.mNumberBuffers ≤ i → out[i]? = ioData.mBuffers[i]?) := by
  obtain ⟨inl, outl, hprep, hci, -, hptr⟩ :=
    prepareBlock_spec inst inBlock outBlock blockLen ⟨by omega, ho⟩ hin hout
  have hci2 : Count inl = inst.mAudioIns := by rw [hci, hc]
  obtain ⟨out, hr, hlen, h1, h2, h3⟩ :=
    Render_spec { inst with mInputList := inl, mOutputList := outl } ioData hio
  refine ⟨_, out, hprep, hci2, hr, hlen, ?_, ?_, h3⟩
  · intro i hi
    have hib : i < inBlock.length := by omega
    obtain ⟨s, d, e1, e2, e3⟩ := h1 i (by omega) (by show i < Count inl; omega)
    obtain ⟨bs, b, f1, f2, f3⟩ := hptr i inBlock[i] (by omega) (List.getElem?_eq_getElem hib)
    have hsb : s = b := by
      have e1b : (inl.getD [])[i]? = some s := e1
      rw [f1] at e1b
      simp only [Option.getD_some] at e1b
      rw [f2] at e1b
      exact (Option.some.inj e1b).symm
    refine ⟨inBlock[i], d, List.getElem?_eq_getElem hib, e2, ?_⟩
    rw [e3, hsb, f3]
  · intro i hi1 hi2
    exact h2 i (by show Count inl ≤ i; omega) hi2

theorem Render_hands_back_block_pointers_witness :
    ∃ i1 out, prepareBlock freshStub [11, 12] [21, 22] 256 = some i1 ∧
      Count i1.mInputList = freshStub.mAudioIns ∧
      RenderCallback i1 ⟨3, [⟨1, 1024, 5⟩, ⟨1, 1024, 6⟩, ⟨1, 1024, 7⟩, ⟨1, 1024, 8⟩]⟩ =
        some (0, { (⟨3, [⟨1, 1024, 5⟩, ⟨1, 1024, 6⟩, ⟨1, 1024, 7⟩, ⟨1, 1024, 8⟩]⟩ :
          AudioBufferList) with mBuffers := out }) ∧
      out.length = 4 ∧
      (∀ i : Nat, i < min 3 freshStub.mAudioIns →
        ∃ p d, [11, 12][i]? = some p ∧
          [(⟨1, 1024, 5⟩ : AudioBuffer), ⟨1, 1024, 6⟩, ⟨1, 1024, 7⟩, ⟨1, 1024, 8⟩][i]? = some d ∧
          out[i]? = some { d with mData := p }) ∧
      (∀ i : Nat, freshStub.mAudioIns ≤ i → i < 3 →
        ∃ d, [(⟨1, 1024, 5⟩ : AudioBuffer), ⟨1, 1024, 6⟩, ⟨1, 1024, 7⟩, ⟨1, 1024, 8⟩][i]? =
            some d ∧
          out[i]? = some { d with mData := nullptr }) ∧
      (∀ i : Nat, 3 ≤ i →
        out[i]? =
          [(⟨1, 1024, 5⟩ : AudioBuffer), ⟨1, 1024, 6⟩, ⟨1, 1024, 7⟩, ⟨1, 1024, 8⟩][i]?) :=
  Render_hands_back_block_pointers freshStub [11, 12] [21, 22] 256
    ⟨3, [⟨1, 1024, 5⟩, ⟨1, 1024, 6⟩, ⟨1, 1024, 7⟩, ⟨1, 1024, 8⟩]⟩
    (by decide) (by decide) (by decide) (by decide) (by decide)

end AudioUnit
